import Mathlib

/-!
# A shallow embedding of the `3body.py` interactive N-body simulator

The physics core of the script (`compute_forces`, `update_bodies`, the
`add_body` body-lifecycle routine, the timestep slider handler and the
TAB focus-next scan) is translated into Lean definitions over exact real
arithmetic: 2-vectors are pairs of reals, the mutable global `bodies`
list becomes an explicit `List Body`, and the mutable globals read by a
routine (`TIMESTEP`, `SCALE`, `camera_offset`) become explicit
parameters.  Python's unbounded `while True` loop in the focus scan is
rendered with an explicit fuel argument counting loop iterations.
-/

namespace ThreeBody

/-- A 2-vector, as the two components of a `numpy` length-2 array.
Componentwise `+`, `-`, `0` come from the product instances. -/
abbrev Vec2 : Type := ℝ × ℝ

/-- Scalar times vector, `c * v` on numpy arrays (componentwise). -/
noncomputable def smulV (c : ℝ) (v : Vec2) : Vec2 := (c * v.1, c * v.2)

/-- Vector times scalar, `v * c` on numpy arrays (componentwise). -/
noncomputable def vsmul (v : Vec2) (c : ℝ) : Vec2 := (v.1 * c, v.2 * c)

/-- Vector divided by scalar, `v / c` on numpy arrays (componentwise). -/
noncomputable def vdiv (v : Vec2) (c : ℝ) : Vec2 := (v.1 / c, v.2 / c)

/-- `np.linalg.norm` of a 2-vector. -/
noncomputable def norm2 (v : Vec2) : ℝ := Real.sqrt (v.1 ^ 2 + v.2 ^ 2)

/-- `G = 6.6743e-11`, the gravitational constant of the script. -/
noncomputable def G : ℝ := 6.6743e-11

/-- The hard-coded softening radius `1e7` of `compute_forces`. -/
noncomputable def softeningRadius : ℝ := 1e7

/-- `PROXIMA_MIN_MASS = 2.38e29`, minimum mass of a star. -/
noncomputable def PROXIMA_MIN_MASS : ℝ := 2.38e29

/-- `PLUTO_MIN_MASS = 1.31e22`, minimum mass of a planet. -/
noncomputable def PLUTO_MIN_MASS : ℝ := 1.31e22

/-- `JUPITER_MAX_MASS = 1.898e27`, maximum mass of a planet. -/
noncomputable def JUPITER_MAX_MASS : ℝ := 1.898e27

/-- `MASS_RADIUS_SCALE = 1e-29`. -/
noncomputable def MASS_RADIUS_SCALE : ℝ := 1e-29

/-- `PLANET_MASS_RADIUS_SCALE = 5e-28`. -/
noncomputable def PLANET_MASS_RADIUS_SCALE : ℝ := 5e-28

/-- `MASS_COLOR_SCALE = 1e30`. -/
noncomputable def MASS_COLOR_SCALE : ℝ := 1e30

/-- Screen width constant `WIDTH = 800`. -/
noncomputable def WIDTH : ℝ := 800

/-- Screen height constant `HEIGHT = 750`. -/
noncomputable def HEIGHT : ℝ := 750

/-- The `"type"` tag of a body: the script stores the string `"star"` or
`"planet"`. -/
inductive BodyType : Type where
  | star : BodyType
  | planet : BodyType
deriving DecidableEq, Repr

/-- Python's `int()` truncation toward zero on a real. -/
noncomputable def pyInt (x : ℝ) : ℤ := if 0 ≤ x then ⌊x⌋ else ⌈x⌉

/-- `mass_to_color(mass)`: the piecewise red→orange→yellow→white→blue
colour map of the script, with `int()` truncations made explicit. -/
noncomputable def mass_to_color (mass : ℝ) : ℤ × ℤ × ℤ :=
  if mass < 1 * MASS_COLOR_SCALE then
    (255, pyInt (165 * (mass / MASS_COLOR_SCALE)), 0)
  else if mass < 2 * MASS_COLOR_SCALE then
    (255, 165 + pyInt (90 * ((mass - MASS_COLOR_SCALE) / MASS_COLOR_SCALE)), 0)
  else if mass < 3 * MASS_COLOR_SCALE then
    (255, 255, pyInt (255 * ((mass - 2 * MASS_COLOR_SCALE) / MASS_COLOR_SCALE)))
  else if mass < 4 * MASS_COLOR_SCALE then
    (255 - pyInt (255 * ((mass - 3 * MASS_COLOR_SCALE) / MASS_COLOR_SCALE)), 255, 255)
  else
    (0, 0, 255)

/-- `calculate_dynamic_radius(mass)`; the global `SCALE` it reads is an
explicit parameter. -/
noncomputable def calculate_dynamic_radius (mass scale : ℝ) : ℤ :=
  let base : ℤ := max 1 (pyInt (mass * MASS_RADIUS_SCALE))
  max 2 (pyInt ((base : ℝ) / (scale / 1e9)))

/-- `calculate_dynamic_radius_planet(mass)`; the global `SCALE` it reads
is an explicit parameter. -/
noncomputable def calculate_dynamic_radius_planet (mass scale : ℝ) : ℤ :=
  let base : ℝ := mass * PLANET_MASS_RADIUS_SCALE
  max 2 (pyInt (base / (scale / 1e9)))

/-- One body dict of the script: `mass`, `state[:2]` (position),
`state[2:]` (velocity), `color`, `radius`, `type`. -/
structure Body : Type where
  mass : ℝ
  pos : Vec2
  vel : Vec2
  color : ℤ × ℤ × ℤ
  radius : ℤ
  type : BodyType

instance : Inhabited Body := ⟨⟨1, (0, 0), (0, 0), (0, 0, 0), 0, BodyType.star⟩⟩

/-- Lines 70–72 of the script: the norm with the softening floor,
`if r_mag < 1e7: r_mag = 1e7`. -/
noncomputable def softened (x : ℝ) : ℝ := if x < softeningRadius then softeningRadius else x

/-- The inner accumulation of `compute_forces` for one ordered pair:
`G * body1["mass"] * body2["mass"] * r_vec / r_mag**3` with the softened
`r_mag`. -/
noncomputable def pairForce (b1 b2 : Body) : Vec2 :=
  let r := b2.pos - b1.pos
  vdiv (smulV (G * b1.mass * b2.mass) r) ((softened (norm2 r)) ^ 3)

/-- `compute_forces(bodies)`: for each `i`, fold the pair contributions
over all `j ≠ i`, starting from `np.zeros(2)`. -/
noncomputable def compute_forces (bodies : List Body) : List Vec2 :=
  (List.range bodies.length).map fun i =>
    (List.range bodies.length).foldl
      (fun force j =>
        if i ≠ j then force + pairForce (bodies.getD i default) (bodies.getD j default)
        else force)
      (0 : Vec2)

/-- The body of the `update_bodies` loop for one body: acceleration,
then velocity update, then position update from the updated velocity. -/
noncomputable def eulerUpdate (b : Body) (force : Vec2) (dt : ℝ) : Body :=
  let acceleration := vdiv force b.mass
  let vel := b.vel + vsmul acceleration dt
  { b with vel := vel, pos := b.pos + vsmul vel dt }

/-- `update_bodies(bodies, forces)`: the in-place loop over
`enumerate(bodies)` reading `forces[i]`, as a list rebuild; the global
`TIMESTEP` is the explicit `dt`. -/
noncomputable def update_bodies (bodies : List Body) (forces : List Vec2) (dt : ℝ) : List Body :=
  (List.range bodies.length).map fun i =>
    eulerUpdate (bodies.getD i default) (forces.getD i 0) dt

/-- Lines 300–302 of the main loop: one simulation step, forces first,
then the update. -/
noncomputable def step (bodies : List Body) (dt : ℝ) : List Body :=
  update_bodies bodies (compute_forces bodies) dt

/-- Modelled from the spec: the force on body `i`, in the spec's words —
the sum over every other body `j` of `G * mass(i) * mass(j) * r / d^3`
with `r = position(j) - position(i)` and `d = max(|r|, softeningRadius)`.
To be compared with `compute_forces`. -/
noncomputable def specPairForce (b1 b2 : Body) : Vec2 :=
  let r := b2.pos - b1.pos
  vdiv (smulV (G * b1.mass * b2.mass) r) ((max (norm2 r) softeningRadius) ^ 3)

/-- Modelled from the spec: total force on body `i` as a sum over all
`j ≠ i` of `specPairForce`. -/
noncomputable def specForceOn (bodies : List Body) (i : ℕ) : Vec2 :=
  ((List.range bodies.length).map fun j =>
    if i ≠ j then specPairForce (bodies.getD i default) (bodies.getD j default)
    else 0).sum

/-- Total momentum `Σ mass * velocity` of a world, the conserved
quantity of the spec's two-body test. -/
noncomputable def momentum (bodies : List Body) : Vec2 :=
  (bodies.map fun b => vsmul b.vel b.mass).sum

/-- `add_body(position, velocity, mode, mass)` of the script: appends a
new body dict to the global `bodies` list and focuses the last body.
The globals it reads (`bodies`, `camera_offset`, `SCALE`) are explicit
parameters; the result is the new list paired with the new
`focused_body_index`.  Python's falsy test `mass if mass else
PROXIMA_MIN_MASS` on the float argument of the script's single call site
is the `mass = 0` test. -/
noncomputable def add_body (bodies : List Body) (camera_offset : Vec2) (scale : ℝ)
    (position velocity : Vec2) (mode : BodyType) (mass : ℝ) : List Body × ℤ :=
  let pos : Vec2 := ((position.1 - WIDTH / 2) * scale + camera_offset.1,
                     (position.2 - HEIGHT / 2) * scale + camera_offset.2)
  let newBodies :=
    match mode with
    | BodyType.star =>
      let m := if mass = 0 then PROXIMA_MIN_MASS else mass
      bodies ++ [{ mass := m, pos := pos, vel := velocity,
                   color := mass_to_color m,
                   radius := calculate_dynamic_radius m scale,
                   type := BodyType.star }]
    | BodyType.planet =>
      let m := min JUPITER_MAX_MASS mass
      bodies ++ [{ mass := m, pos := pos, vel := velocity,
                   color := (200, 200, 0),
                   radius := calculate_dynamic_radius_planet m scale,
                   type := BodyType.planet }]
  (newBodies, (newBodies.length : ℤ) - 1)

/-- `slider_rect.left`: `WIDTH // 2 - SLIDER_WIDTH // 2 = 250`. -/
def sliderLeft : ℤ := 250

/-- `slider_rect.right`: left edge plus `SLIDER_WIDTH = 300`. -/
def sliderRight : ℤ := 550

/-- `slider_thumb_rect.width = 10`. -/
def sliderThumbWidth : ℤ := 10

/-- Line 267 of the script: the dragged thumb x, clamped into
`[slider_rect.left, slider_rect.right - thumb_width]`. -/
def sliderNewX (px : ℤ) : ℤ := max (min px (sliderRight - sliderThumbWidth)) sliderLeft

/-- Line 269 of the script: the stored
`TIMESTEP = (slider_thumb_rect.x - slider_rect.left) * 100` after a
slider drag to mouse x-coordinate `px`. -/
def sliderTimestep (px : ℤ) : ℤ := (sliderNewX px - sliderLeft) * 100

/-- The K_TAB `while True` focus scan of lines 206–222, over the list of
body types: advance `focused_body_index` cyclically; stop with `some i`
on the first body matching the mode, or with `some (-1)` when the index
comes back to `start_index` with no match; after an iteration that
started from `start_index = -1`, `start_index` becomes `0`.  The `fuel`
argument counts remaining loop iterations; `none` means the scan did not
finish within that many iterations. -/
def focusScan (types : List BodyType) (mode : BodyType) :
    ℤ → ℤ → ℕ → Option ℤ
  | _, _, 0 => none
  | idx, start, fuel + 1 =>
    let n : ℤ := types.length
    let i := (idx + 1) % n
    if types.getD i.toNat BodyType.star = mode then some i
    else if i = start then some (-1)
    else focusScan types mode i (if start = -1 then 0 else start) fuel

/-- A sample star body used to instantiate universally quantified
results on concrete worlds. -/
noncomputable def bA : Body :=
  { mass := 2, pos := (0, 0), vel := (3, 4), color := (255, 0, 0), radius := 2,
    type := BodyType.star }

/-- A sample planet body at distance `2e7` from `bA`. -/
noncomputable def bB : Body :=
  { mass := 5, pos := (2e7, 0), vel := (-1, 1), color := (200, 200, 0), radius := 2,
    type := BodyType.planet }

/-- A sample star body at position `(1, 2)`. -/
noncomputable def bC : Body :=
  { mass := 3, pos := (1, 2), vel := (5, 6), color := (0, 0, 255), radius := 2,
    type := BodyType.star }

/-- A sample planet body coincident with `bC`. -/
noncomputable def bD : Body :=
  { mass := 4, pos := (1, 2), vel := (7, 8), color := (200, 200, 0), radius := 2,
    type := BodyType.planet }

/-! ## Helper lemmas -/

lemma softened_eq_max (x : ℝ) : softened x = max x softeningRadius := by
  unfold softened
  rcases lt_or_le x softeningRadius with h | h
  · rw [if_pos h, max_eq_right h.le]
  · rw [if_neg (not_lt.mpr h), max_eq_left h]

lemma pairForce_eq_specPairForce (b1 b2 : Body) :
    pairForce b1 b2 = specPairForce b1 b2 := by
  simp only [pairForce, specPairForce, softened_eq_max]

lemma foldl_ite_add {α : Type} (p : α → Prop) [DecidablePred p] (f : α → Vec2)
    (l : List α) (init : Vec2) :
    l.foldl (fun acc j => if p j then acc + f j else acc) init
      = init + (l.map fun j => if p j then f j else 0).sum := by
  induction l generalizing init with
  | nil => simp
  | cons a t ih =>
    simp only [List.foldl_cons, List.map_cons, List.sum_cons]
    by_cases h : p a
    · rw [if_pos h, if_pos h, ih, add_assoc]
    · rw [if_neg h, if_neg h, ih, zero_add]

lemma getD_map_range {β : Type} [Inhabited β] (f : ℕ → β) (n i : ℕ) (h : i < n) :
    ((List.range n).map f).getD i default = f i := by
  rw [List.getD_eq_getElem _ _ (by simpa using h)]
  simp

lemma compute_forces_getD (bodies : List Body) (i : ℕ) (h : i < bodies.length) :
    (compute_forces bodies).getD i 0 = specForceOn bodies i := by
  unfold compute_forces specForceOn
  rw [List.getD_eq_getElem _ _ (by simpa using h)]
  simp only [List.getElem_map, List.getElem_range]
  rw [foldl_ite_add, zero_add]
  congr 1
  apply List.map_congr_left
  intro j _
  by_cases hij : i ≠ j
  · rw [if_pos hij, if_pos hij, pairForce_eq_specPairForce]
  · rw [if_neg hij, if_neg hij]

lemma update_bodies_getD (bodies : List Body) (forces : List Vec2) (dt : ℝ)
    (i : ℕ) (h : i < bodies.length) :
    (update_bodies bodies forces dt).getD i default
      = eulerUpdate (bodies.getD i default) (forces.getD i 0) dt := by
  unfold update_bodies
  rw [List.getD_eq_getElem _ _ (by simpa using h)]
  simp

lemma update_bodies_length (bodies : List Body) (forces : List Vec2) (dt : ℝ) :
    (update_bodies bodies forces dt).length = bodies.length := by
  unfold update_bodies
  simp

lemma norm2_neg_sub (a b : Vec2) : norm2 (a - b) = norm2 (b - a) := by
  unfold norm2
  rw [Prod.fst_sub, Prod.fst_sub, Prod.snd_sub, Prod.snd_sub]
  ring_nf

lemma pairForce_antisymm (b1 b2 : Body) : pairForce b2 b1 = -pairForce b1 b2 := by
  simp only [pairForce, norm2_neg_sub b1.pos b2.pos]
  apply Prod.ext
  · simp only [vdiv, smulV, Prod.fst_sub, Prod.fst_neg]
    ring_nf
  · simp only [vdiv, smulV, Prod.snd_sub, Prod.snd_neg]
    ring_nf

lemma softeningRadius_le_softened (x : ℝ) : softeningRadius ≤ softened x := by
  unfold softened
  split
  · exact le_refl _
  · next h => exact not_lt.mp h

lemma softened_pos (x : ℝ) : 0 < softened x :=
  lt_of_lt_of_le (by norm_num [softeningRadius]) (softeningRadius_le_softened x)

lemma compute_forces_pair (b1 b2 : Body) :
    compute_forces [b1, b2] = [pairForce b1 b2, pairForce b2 b1] := by
  simp [compute_forces, List.range_succ]

lemma update_bodies_pair (b1 b2 : Body) (F1 F2 : Vec2) (dt : ℝ) :
    update_bodies [b1, b2] [F1, F2] dt
      = [eulerUpdate b1 F1 dt, eulerUpdate b2 F2 dt] := by
  simp [update_bodies, List.range_succ]

lemma momentum_pair (x y : Body) :
    momentum [x, y] = vsmul x.vel x.mass + vsmul y.vel y.mass := by
  simp [momentum]

lemma pairForce_coincident (b1 b2 : Body) (h : b1.pos = b2.pos) :
    pairForce b1 b2 = 0 := by
  simp only [pairForce, h, sub_self]
  apply Prod.ext <;> simp [vdiv, smulV]

lemma eulerUpdate_zero_force (b : Body) (dt : ℝ) :
    eulerUpdate b 0 dt = { b with pos := b.pos + vsmul b.vel dt } := by
  have hv : b.vel + vsmul (vdiv (0 : Vec2) b.mass) dt = b.vel := by
    apply Prod.ext <;> simp [vsmul, vdiv]
  simp only [eulerUpdate, hv]

lemma step_coincident (b1 b2 : Body) (dt : ℝ) (h : b1.pos = b2.pos) :
    step [b1, b2] dt
      = [{ b1 with pos := b1.pos + vsmul b1.vel dt },
         { b2 with pos := b2.pos + vsmul b2.vel dt }] := by
  rw [step, compute_forces_pair, pairForce_coincident b1 b2 h,
    pairForce_coincident b2 b1 h.symm, update_bodies_pair,
    eulerUpdate_zero_force, eulerUpdate_zero_force]

lemma momentum_step_pair (b1 b2 : Body) (dt : ℝ)
    (h1 : b1.mass ≠ 0) (h2 : b2.mass ≠ 0) :
    momentum (step [b1, b2] dt) = momentum [b1, b2] := by
  rw [step, compute_forces_pair, update_bodies_pair, momentum_pair, momentum_pair,
    pairForce_antisymm b1 b2]
  set F := pairForce b1 b2 with hF
  simp only [eulerUpdate]
  apply Prod.ext
  · simp only [vsmul, vdiv, Prod.fst_add, Prod.fst_neg]
    field_simp
    ring
  · simp only [vsmul, vdiv, Prod.snd_add, Prod.snd_neg]
    field_simp
    ring

lemma focusScan_zero (types : List BodyType) (mode : BodyType) (idx start : ℤ) :
    focusScan types mode idx start 0 = none := rfl

lemma focusScan_succ (types : List BodyType) (mode : BodyType)
    (idx start : ℤ) (f : ℕ) :
    focusScan types mode idx start (f + 1)
      = if types.getD ((idx + 1) % (types.length : ℤ)).toNat BodyType.star = mode
        then some ((idx + 1) % (types.length : ℤ))
        else if (idx + 1) % (types.length : ℤ) = start then some (-1)
        else focusScan types mode ((idx + 1) % (types.length : ℤ))
          (if start = -1 then 0 else start) f := rfl

lemma focusScan_some_of_emod (types : List BodyType) (mode : BodyType) :
    ∀ (k : ℕ) (idx start : ℤ) (fuel : ℕ),
      0 < types.length → 0 ≤ start → start < (types.length : ℤ) →
      (idx + k) % (types.length : ℤ) = start →
      1 ≤ k → k ≤ fuel →
      ∃ r, focusScan types mode idx start fuel = some r := by
  intro k
  induction k with
  | zero => intro idx start fuel _ _ _ _ hk _; omega
  | succ k ih =>
    intro idx start fuel hn hs0 hsn hmod _ hfuel
    obtain ⟨f, rfl⟩ : ∃ f, fuel = f + 1 := ⟨fuel - 1, by omega⟩
    rw [focusScan_succ]
    by_cases hmatch :
        types.getD ((idx + 1) % (types.length : ℤ)).toNat BodyType.star = mode
    · exact ⟨(idx + 1) % (types.length : ℤ), by rw [if_pos hmatch]⟩
    · rw [if_neg hmatch]
      by_cases hstop : (idx + 1) % (types.length : ℤ) = start
      · exact ⟨-1, by rw [if_pos hstop]⟩
      · rw [if_neg hstop]
        have hkpos : 1 ≤ k := by
          rcases Nat.eq_zero_or_pos k with hk0 | hk1
        -- with k = 0 the hypothesis says the next index is already `start`
          · exfalso
            apply hstop
            simpa [hk0] using hmod
          · exact hk1
        have hstartne : ¬ start = -1 := by omega
        rw [if_neg hstartne]
        apply ih _ start f hn hs0 hsn _ hkpos (by omega)
        rw [Int.emod_add_emod]
        have : idx + 1 + (k : ℤ) = idx + ((k : ℕ) + 1 : ℕ) := by push_cast; ring
        rw [this, hmod]

lemma focusScan_terminates (types : List BodyType) (mode : BodyType) (start : ℤ)
    (hne : types ≠ [])
    (hstart : start = -1 ∨ (0 ≤ start ∧ start < (types.length : ℤ))) :
    ∃ r, focusScan types mode start start (types.length + 1) = some r := by
  have hn : 0 < types.length := List.length_pos.mpr hne
  have hnz : ((types.length : ℤ)) ≠ 0 := by positivity
  rcases hstart with h1 | ⟨hs0, hsn⟩
  · subst h1
    obtain ⟨f, hf⟩ : ∃ f, types.length = f + 1 := ⟨types.length - 1, by omega⟩
    rw [hf]
    rw [focusScan_succ]
    have hzero : ((-1 : ℤ) + 1) % (types.length : ℤ) = 0 := by
      norm_num
    rw [hzero]
    by_cases hmatch : types.getD (0 : ℤ).toNat BodyType.star = mode
    · exact ⟨0, by rw [if_pos hmatch]⟩
    · rw [if_neg hmatch]
      have h01 : ¬ (0 : ℤ) = -1 := by omega
      rw [if_neg h01]
      have hsimp : (if (-1 : ℤ) = -1 then (0 : ℤ) else -1) = 0 := by norm_num
      rw [hsimp]
      exact focusScan_some_of_emod types mode types.length 0 0 (f + 1)
        hn le_rfl (by exact_mod_cast hn) (by simp [Int.emod_self]) (by omega) (by omega)
  · apply focusScan_some_of_emod types mode types.length start start _ hn hs0 hsn _
      (by omega) (by omega)
    have : start + (types.length : ℤ) = start + (types.length : ℤ) * 1 := by ring
    rw [this, Int.add_mul_emod_self_left, Int.emod_eq_of_lt hs0 hsn]

lemma focusScan_nomatch (types : List BodyType) (mode : BodyType)
    (hall : ∀ t ∈ types, t ≠ mode) (hn : 0 < types.length) :
    ∀ (fuel : ℕ) (idx start r : ℤ),
      focusScan types mode idx start fuel = some r → r = -1 := by
  intro fuel
  induction fuel with
  | zero =>
    intro idx start r h
    rw [focusScan_zero] at h
    exact absurd h (by simp)
  | succ f ih =>
    intro idx start r h
    have hnz : ((types.length : ℤ)) ≠ 0 := by positivity
    have hlt : ((idx + 1) % (types.length : ℤ)).toNat < types.length := by
      have h0 : 0 ≤ (idx + 1) % (types.length : ℤ) := Int.emod_nonneg _ hnz
      have h1 : (idx + 1) % (types.length : ℤ) < (types.length : ℤ) :=
        Int.emod_lt_of_pos _ (by exact_mod_cast hn)
      omega
    have hmem : types.getD ((idx + 1) % (types.length : ℤ)).toNat BodyType.star ∈ types := by
      rw [List.getD_eq_getElem _ _ hlt]
      exact List.getElem_mem hlt
    have hmatch :
        ¬ types.getD ((idx + 1) % (types.length : ℤ)).toNat BodyType.star = mode :=
      hall _ hmem
    rw [focusScan_succ, if_neg hmatch] at h
    by_cases hstop : (idx + 1) % (types.length : ℤ) = start
    · rw [if_pos hstop] at h
      exact (Option.some_inj.mp h).symm
    · rw [if_neg hstop] at h
      exact ih _ _ _ h

lemma getD_append_singleton (l : List Body) (b : Body) :
    (l ++ [b]).getD l.length default = b := by
  rw [List.getD_append_right _ _ _ _ le_rfl]
  simp

lemma norm2_bB_bA : norm2 (bB.pos - bA.pos) = 2e7 := by
  have h : bB.pos - bA.pos = ((2e7 : ℝ), (0 : ℝ)) := by
    simp only [bA, bB, Prod.mk_sub_mk]
    norm_num
  rw [h]
  unfold norm2
  rw [show ((2e7 : ℝ), (0 : ℝ)).1 ^ 2 + ((2e7 : ℝ), (0 : ℝ)).2 ^ 2 = (2e7 : ℝ) ^ 2 by norm_num]
  rw [Real.sqrt_sq (by norm_num : (0 : ℝ) ≤ 2e7)]

/-! ## The claims -/

/-- C1: one integration step computes, for each body `i`, the force as
the spec's sum over every other body `j` of
`G * mass(i) * mass(j) * r / d^3` with `d = max(|r|, softeningRadius)`,
and every force is evaluated from the positions held at the start of the
step: `step` hands `update_bodies` exactly the output of
`compute_forces` on the unmodified bodies list. -/
theorem C1_forces_spec_snapshot (bodies : List Body) (dt : ℝ) (i : ℕ)
    (h : i < bodies.length) :
    (compute_forces bodies).getD i 0 = specForceOn bodies i ∧
    step bodies dt = update_bodies bodies (compute_forces bodies) dt :=
  ⟨compute_forces_getD bodies i h, rfl⟩

/-- Witness for C1 on the concrete two-body world `[bA, bB]`. -/
theorem C1_forces_spec_snapshot_witness :
    (compute_forces [bA, bB]).getD 0 0 = specForceOn [bA, bB] 0 ∧
    step [bA, bB] 1 = update_bodies [bA, bB] (compute_forces [bA, bB]) 1 :=
  C1_forces_spec_snapshot [bA, bB] 1 0 (by decide)

/-- C2: the integration step is semi-implicit Euler — for each body the
velocity is updated first with `force / mass * dt`, and the position
update then uses the already-updated velocity, not the old one. -/
theorem C2_semi_implicit_euler (bodies : List Body) (forces : List Vec2)
    (dt : ℝ) (i : ℕ) (h : i < bodies.length)
    (hm : 0 < (bodies.getD i default).mass) :
    ∃ v : Vec2,
      v = (bodies.getD i default).vel
            + vsmul (vdiv (forces.getD i 0) (bodies.getD i default).mass) dt ∧
      (update_bodies bodies forces dt).getD i default
        = { bodies.getD i default with
              vel := v,
              pos := (bodies.getD i default).pos + vsmul v dt } := by
  refine ⟨_, rfl, ?_⟩
  rw [update_bodies_getD bodies forces dt i h]
  rfl

/-- Witness for C2 on the concrete world `[bA]` with force `(6, 8)`. -/
theorem C2_semi_implicit_euler_witness :
    ∃ v : Vec2,
      v = ([bA].getD 0 default).vel
            + vsmul (vdiv ([((6 : ℝ), (8 : ℝ))].getD 0 0) ([bA].getD 0 default).mass) 1 ∧
      (update_bodies [bA] [((6 : ℝ), (8 : ℝ))] 1).getD 0 default
        = { [bA].getD 0 default with
              vel := v,
              pos := ([bA].getD 0 default).pos + vsmul v 1 } :=
  C2_semi_implicit_euler [bA] [((6 : ℝ), (8 : ℝ))] 1 0 (by decide)
    (by norm_num [bA, List.getD_cons_zero])

/-- C3: for every pair of bodies — coincident or not — the divisor of
the force-pair evaluation is at least the softening radius (hence
positive), and when the two bodies are at identical positions the step
completes, with every resulting position and velocity the well-defined
real value given by zero force. -/
theorem C3_softening_floor (b1 b2 : Body) (dt : ℝ) :
    softeningRadius ≤ softened (norm2 (b2.pos - b1.pos)) ∧
    0 < softened (norm2 (b2.pos - b1.pos)) ∧
    (b1.pos = b2.pos →
      step [b1, b2] dt
        = [{ b1 with pos := b1.pos + vsmul b1.vel dt },
           { b2 with pos := b2.pos + vsmul b2.vel dt }]) :=
  ⟨softeningRadius_le_softened _, softened_pos _,
   fun hpos => step_coincident b1 b2 dt hpos⟩

/-- Witness for C3: the divisor bound on the non-coincident pair
`(bA, bB)` and the full statement, coincident step included, on the
coincident pair `(bC, bD)`. -/
theorem C3_softening_floor_witness :
    softeningRadius ≤ softened (norm2 (bB.pos - bA.pos)) ∧
    softeningRadius ≤ softened (norm2 (bD.pos - bC.pos)) ∧
    0 < softened (norm2 (bD.pos - bC.pos)) ∧
    step [bC, bD] 1
      = [{ bC with pos := bC.pos + vsmul bC.vel 1 },
         { bD with pos := bD.pos + vsmul bD.vel 1 }] :=
  ⟨(C3_softening_floor bA bB 1).1,
   (C3_softening_floor bC bD 1).1,
   (C3_softening_floor bC bD 1).2.1,
   (C3_softening_floor bC bD 1).2.2 rfl⟩

/-- C4 as stated is false: `add_body` has no validation at all — called
with mass `-5` it appends a body, so the body count changes from `0` to
`1` instead of the call failing with `InvalidParameter`. -/
theorem C4_counterexample :
    ((add_body [] (0, 0) 1 (0, 0) (0, 0) BodyType.star (-5)).1).length = 1 := by
  simp [add_body]

/-- C4 amended: `add_body` never fails and always appends exactly one
body; a star call with the falsy mass `0` substitutes
`PROXIMA_MIN_MASS`, a star call with any nonzero mass (including `-5`)
stores that mass unchanged, and a planet call stores
`min JUPITER_MAX_MASS mass`. -/
theorem C4_amended (bodies : List Body) (camera_offset : Vec2) (scale : ℝ)
    (position velocity : Vec2) (mode : BodyType) (mass : ℝ) :
    ((add_body bodies camera_offset scale position velocity mode mass).1).length
        = bodies.length + 1 ∧
    (mode = BodyType.star → mass = 0 →
      (((add_body bodies camera_offset scale position velocity mode mass).1).getD
          bodies.length default).mass = PROXIMA_MIN_MASS) ∧
    (mode = BodyType.star → mass ≠ 0 →
      (((add_body bodies camera_offset scale position velocity mode mass).1).getD
          bodies.length default).mass = mass) ∧
    (mode = BodyType.planet →
      (((add_body bodies camera_offset scale position velocity mode mass).1).getD
          bodies.length default).mass = min JUPITER_MAX_MASS mass) := by
  refine ⟨by cases mode <;> simp [add_body], ?_, ?_, ?_⟩
  · rintro rfl rfl
    simp only [add_body, getD_append_singleton]
    simp
  · rintro rfl hm
    simp only [add_body, getD_append_singleton]
    simp [hm]
  · rintro rfl
    simp only [add_body, getD_append_singleton]

/-- Witness for C4 amended: a star call with mass `-5` and a star call
with mass `0`, both on the empty world. -/
theorem C4_amended_witness :
    (((add_body [] (0, 0) 1 (0, 0) (0, 0) BodyType.star (-5)).1).getD 0 default).mass
        = (-5 : ℝ) ∧
    (((add_body [] (0, 0) 1 (0, 0) (0, 0) BodyType.star 0).1).getD 0 default).mass
        = PROXIMA_MIN_MASS :=
  ⟨((C4_amended [] (0, 0) 1 (0, 0) (0, 0) BodyType.star (-5)).2.2.1 rfl
      (by norm_num)),
   ((C4_amended [] (0, 0) 1 (0, 0) (0, 0) BodyType.star 0).2.1 rfl rfl)⟩

/-- C5 as stated is false: the slider handler never fails and can store
a zero timestep — a drag to the slider's left edge stores
`TIMESTEP = 0`, which is not strictly positive. -/
theorem C5_counterexample : sliderTimestep 250 = 0 := by decide

/-- C5 amended: the handler clamps the thumb to
`[sliderLeft, sliderRight - sliderThumbWidth]` and stores
`(thumbX - sliderLeft) * 100`; the stored timestep always lies in
`[0, 29000]` (so it can be zero), and no request fails. -/
theorem C5_amended (px : ℤ) :
    sliderTimestep px
        = (max (min px (sliderRight - sliderThumbWidth)) sliderLeft - sliderLeft) * 100 ∧
    0 ≤ sliderTimestep px ∧ sliderTimestep px ≤ 29000 := by
  refine ⟨rfl, ?_, ?_⟩ <;>
  · simp only [sliderTimestep, sliderNewX, sliderLeft, sliderRight, sliderThumbWidth,
      max_def, min_def]
    split_ifs <;> omega

/-- C6: for an isolated two-body world with positive masses, total
momentum is exactly conserved by one integration step (exact real
arithmetic). -/
theorem C6_two_body_momentum (b1 b2 : Body) (dt : ℝ)
    (h1 : 0 < b1.mass) (h2 : 0 < b2.mass) :
    momentum (step [b1, b2] dt) = momentum [b1, b2] :=
  momentum_step_pair b1 b2 dt (ne_of_gt h1) (ne_of_gt h2)

/-- Witness for C6 on the concrete two-body world `[bA, bB]`. -/
theorem C6_two_body_momentum_witness :
    momentum (step [bA, bB] 1) = momentum [bA, bB] :=
  C6_two_body_momentum bA bB 1 (by norm_num [bA]) (by norm_num [bB])

/-- C7: for two bodies separated by more than the softening radius, the
force contribution on one from the other is exactly the negation of the
reverse contribution. -/
theorem C7_force_antisymm (b1 b2 : Body)
    (hsep : softeningRadius < norm2 (b2.pos - b1.pos)) :
    pairForce b2 b1 = -pairForce b1 b2 :=
  pairForce_antisymm b1 b2

/-- Witness for C7 on `bA` and `bB`, separated by `2e7 > 1e7`. -/
theorem C7_force_antisymm_witness : pairForce bB bA = -pairForce bA bB :=
  C7_force_antisymm bA bB
    (by rw [norm2_bB_bA]; norm_num [softeningRadius])

/-- C8 as stated is false: the star branch of `add_body` does not clamp
— a star call with mass `1` stores mass `1`, far below
`PROXIMA_MIN_MASS`. -/
theorem C8_counterexample :
    (((add_body [] (0, 0) 1 (0, 0) (0, 0) BodyType.star 1).1).getD 0 default).mass
      < PROXIMA_MIN_MASS := by
  have h : (((add_body [] (0, 0) 1 (0, 0) (0, 0) BodyType.star 1).1).getD 0 default).mass
      = 1 := by
    simp [add_body]
  rw [h]
  norm_num [PROXIMA_MIN_MASS]

/-- C8 amended: only the planet branch clamps — a created planet's mass
is at most `JUPITER_MAX_MASS`; a created star stores any nonzero
supplied mass unchanged (a falsy `0` is replaced by
`PROXIMA_MIN_MASS`), with no lower clamp. -/
theorem C8_amended (bodies : List Body) (camera_offset : Vec2) (scale : ℝ)
    (position velocity : Vec2) (mass : ℝ) :
    (((add_body bodies camera_offset scale position velocity BodyType.planet mass).1).getD
        bodies.length default).mass ≤ JUPITER_MAX_MASS ∧
    (mass ≠ 0 →
      (((add_body bodies camera_offset scale position velocity BodyType.star mass).1).getD
          bodies.length default).mass = mass) := by
  constructor
  · simp only [add_body, getD_append_singleton]
    exact min_le_left _ _
  · intro hm
    simp only [add_body, getD_append_singleton]
    simp [hm]

/-- Witness for C8 amended at mass `1` on the empty world. -/
theorem C8_amended_witness :
    (((add_body [] (0, 0) 1 (0, 0) (0, 0) BodyType.planet 1).1).getD 0 default).mass
        ≤ JUPITER_MAX_MASS ∧
    (((add_body [] (0, 0) 1 (0, 0) (0, 0) BodyType.star 1).1).getD 0 default).mass
        = (1 : ℝ) :=
  ⟨(C8_amended [] (0, 0) 1 (0, 0) (0, 0) 1).1,
   (C8_amended [] (0, 0) 1 (0, 0) (0, 0) 1).2 (by norm_num)⟩

/-- C9 as stated is false for the iteration-count bound: starting
unfocused (`-1`) on a one-body world with no matching body, `n = 1`
loop iterations do not finish the scan (the first body is examined
twice) — the scan needs `n + 1` iterations, after which it cleanly
reports no match. -/
theorem C9_counterexample :
    focusScan [BodyType.planet] BodyType.star (-1) (-1) 1 = none ∧
    focusScan [BodyType.planet] BodyType.star (-1) (-1) 2 = some (-1) := by
  exact ⟨by decide, by decide⟩

/-- C9 amended: from any reachable starting focus (`-1` or a valid
index) on a non-empty world, the TAB scan terminates within `n + 1`
loop iterations (examining only the `n` bodies, the first possibly
twice), and when no body of the requested kind exists it sets the focus
to `-1`. -/
theorem C9_focus_scan (types : List BodyType) (mode : BodyType) (start : ℤ)
    (hne : types ≠ [])
    (hstart : start = -1 ∨ (0 ≤ start ∧ start < (types.length : ℤ))) :
    ∃ r, focusScan types mode start start (types.length + 1) = some r ∧
      ((∀ t ∈ types, t ≠ mode) → r = -1) := by
  obtain ⟨r, hr⟩ := focusScan_terminates types mode start hne hstart
  exact ⟨r, hr, fun hall =>
    focusScan_nomatch types mode hall (List.length_pos.mpr hne) _ _ _ _ hr⟩

/-- Witness for C9 amended: a one-star world scanned for planets from
the unfocused state. -/
theorem C9_focus_scan_witness :
    ∃ r, focusScan [BodyType.star] BodyType.planet (-1) (-1) 2 = some r ∧
      ((∀ t ∈ [BodyType.star], t ≠ BodyType.planet) → r = -1) :=
  C9_focus_scan [BodyType.star] BodyType.planet (-1) (by simp) (Or.inl rfl)

/-- C10: the update pass preserves the body count and order and, for
every body, its mass, type, colour and radius — only position and
velocity change; the force pass `compute_forces` is a pure function of
the bodies and returns only the force list. -/
theorem C10_update_frame (bodies : List Body) (forces : List Vec2) (dt : ℝ) :
    (update_bodies bodies forces dt).length = bodies.length ∧
    ∀ i, i < bodies.length →
      ((update_bodies bodies forces dt).getD i default).mass
          = (bodies.getD i default).mass ∧
      ((update_bodies bodies forces dt).getD i default).type
          = (bodies.getD i default).type ∧
      ((update_bodies bodies forces dt).getD i default).color
          = (bodies.getD i default).color ∧
      ((update_bodies bodies forces dt).getD i default).radius
          = (bodies.getD i default).radius := by
  refine ⟨update_bodies_length bodies forces dt, fun i h => ?_⟩
  rw [update_bodies_getD bodies forces dt i h]
  exact ⟨rfl, rfl, rfl, rfl⟩

/-- Witness for C10 on the concrete world `[bA]`. -/
theorem C10_update_frame_witness :
    (update_bodies [bA] [((1 : ℝ), (2 : ℝ))] 1).length = 1 ∧
    ((update_bodies [bA] [((1 : ℝ), (2 : ℝ))] 1).getD 0 default).mass
        = ([bA].getD 0 default).mass :=
  ⟨(C10_update_frame [bA] [((1 : ℝ), (2 : ℝ))] 1).1,
   ((C10_update_frame [bA] [((1 : ℝ), (2 : ℝ))] 1).2 0 (by decide)).1⟩

end ThreeBody
